import Mathlib

/-!
Shallow embedding of the product normalization and sync pipeline of the
Shopify-API-Project repository (src/Core/data_models.py,
src/Core/product_retriever.py, src/Core/sync_orchestrator.py,
src/Shopify/shopify_connector.py), together with theorems settling the
frozen claims about its specification.

Modelling conventions:
* Python dict fields that may be absent are `Option String`; a present but
  empty string is `some ""`.  Python truthiness of such a field
  (`if not d.get(k)`) is `strTruthy`.
* Python `float` prices are modelled as `ℚ`; the only operations the code
  performs on them are parsing from decimal strings, order comparison and
  zero tests, on which `ℚ` agrees with IEEE doubles for the decimal
  literals involved.
* `float(s)` on a decimal literal is modelled by `pyFloat?`, returning
  `none` where Python raises `ValueError`.
* Network effects (image liveness checks, upstream API calls, Shopify
  writes) are oracles passed in as parameters: an image validator
  `String → Bool`, raw record lists standing for the JSON payloads of the
  upstream calls, and a per-product success oracle for catalog writes.
* A Python function that can raise is embedded with `Except String`;
  `.error` marks a raised exception, `.ok` a normal return.
-/

namespace ShopifySync

/-- Python truthiness of an optional string field: `None` and `""` are falsy. -/
def strTruthy : Option String → Bool
  | none => false
  | some s => !s.isEmpty

/-- Python `needle in hay` on strings: substring containment. -/
def pyIn (needle hay : String) : Bool :=
  decide (needle.toList <:+: hay.toList)

/-- Python `s.upper()` (ASCII case mapping suffices for the data involved). -/
def pyUpper (s : String) : String :=
  ⟨s.toList.map Char.toUpper⟩

/-- Python `s.lower()` (ASCII case mapping suffices for the data involved). -/
def pyLower (s : String) : String :=
  ⟨s.toList.map Char.toLower⟩

/-- Python `s.replace(a, b)` for one-character `a`, `b`. -/
def replaceChar (s : String) (a b : Char) : String :=
  ⟨s.toList.map fun c => if c = a then b else c⟩

/-- Python `s.replace(a, b)` with empty `b` for a one-character `a`: removes every occurrence. -/
def removeChar (s : String) (a : Char) : String :=
  ⟨s.toList.filter fun c => c ≠ a⟩

/-- Numeric value of a list of decimal digit characters. -/
def digitsVal (ds : List Char) : Nat :=
  ds.foldl (fun a c => a * 10 + (c.toNat - '0'.toNat)) 0

/-- Exponent part parser state for `pyFloat?`: (well-formed, negative, digits, rest). -/
def pyFloatExp : List Char → Bool × Bool × List Char × List Char
  | 'e' :: t =>
    let (en, t2) : Bool × List Char :=
      match t with
      | '-' :: t2 => (true, t2)
      | '+' :: t2 => (false, t2)
      | t2 => (false, t2)
    (!(t2.takeWhile Char.isDigit).isEmpty, en, t2.takeWhile Char.isDigit, t2.dropWhile Char.isDigit)
  | 'E' :: t =>
    let (en, t2) : Bool × List Char :=
      match t with
      | '-' :: t2 => (true, t2)
      | '+' :: t2 => (false, t2)
      | t2 => (false, t2)
    (!(t2.takeWhile Char.isDigit).isEmpty, en, t2.takeWhile Char.isDigit, t2.dropWhile Char.isDigit)
  | t => (true, false, [], t)

/-- Python `s.strip()` on a character list: drop whitespace at both ends. -/
def trimChars (cs : List Char) : List Char :=
  ((cs.dropWhile Char.isWhitespace).reverse.dropWhile Char.isWhitespace).reverse

/-- Models Python `float(s)` on decimal literals: optional surrounding
whitespace, optional sign, digits with an optional fractional part, optional
decimal exponent.  Returns `none` where Python raises `ValueError`. -/
def pyFloat? (s : String) : Option ℚ :=
  let cs := trimChars s.toList
  let (neg, cs1) : Bool × List Char :=
    match cs with
    | '-' :: t => (true, t)
    | '+' :: t => (false, t)
    | t => (false, t)
  let intDigits := cs1.takeWhile Char.isDigit
  let cs2 := cs1.dropWhile Char.isDigit
  let (fracDigits, cs3) : List Char × List Char :=
    match cs2 with
    | '.' :: t => (t.takeWhile Char.isDigit, t.dropWhile Char.isDigit)
    | t => ([], t)
  if intDigits.isEmpty && fracDigits.isEmpty then none
  else
    let (expOk, expNeg, expDigits, rest) := pyFloatExp cs3
    if !expOk || !rest.isEmpty then none
    else
      let mantissa : Nat := digitsVal intDigits * 10 ^ fracDigits.length + digitsVal fracDigits
      let e := digitsVal expDigits
      let num : Int := (if neg then -(mantissa : Int) else (mantissa : Int)) * (if expNeg then 1 else (10 : Int) ^ e)
      let den : Nat := 10 ^ fracDigits.length * (if expNeg then 10 ^ e else 1)
      some (mkRat num den)

example : pyFloat? "10.00" = some 10 := by decide
example : pyFloat? "0.00" = some 0 := by decide
example : pyFloat? "abc" = none := by decide
example : pyFloat? "" = none := by decide
example : pyFloat? "-2.5" = some (mkRat (-5) 2) := by decide
example : pyFloat? "1e2" = some 100 := by decide
example : pyFloat? " 19.99 " = some (mkRat 1999 100) := by decide

/-! ## Raw upstream records

`CjRecord` embeds the JSON shape consumed by `_cj_product_to_unified`,
`PjRecord` the shape consumed by `_pepperjam_product_to_unified`.  Only the
keys the adapters read are represented. -/

/-- The nested `price` object of a CJ raw record. -/
structure CjPrice where
  amount : Option String := none
  currency : Option String := none
deriving DecidableEq, Repr

/-- A raw CJ product record (the keys `_cj_product_to_unified` reads). -/
structure CjRecord where
  id : Option String := none
  link : Option String := none
  imageLink : Option String := none
  title : Option String := none
  description : Option String := none
  price : Option CjPrice := none
  advertiserId : Option String := none
  advertiserName : Option String := none
  availability : Option String := none
  productType : Option (List String) := none
  googleProductCategoryName : Option String := none
deriving DecidableEq, Repr

/-- An entry of the `categories` list of a Pepperjam raw record. -/
structure PjCategory where
  name : Option String := none
deriving DecidableEq, Repr

/-- A raw Pepperjam product record (the keys `_pepperjam_product_to_unified`
and the dedup loop of `fetch_pepperjam_products` read).  `fetchedByKeyword`
models the `_fetched_by_keyword` key the retriever writes into the dict. -/
structure PjRecord where
  id : Option String := none
  name : Option String := none
  price : Option String := none
  priceSale : Option String := none
  buyUrl : Option String := none
  imageUrl : Option String := none
  descriptionLong : Option String := none
  descriptionShort : Option String := none
  programName : Option String := none
  currencySymbol : Option String := none
  stockAvailability : Option String := none
  categories : List PjCategory := []
  fetchedByKeyword : Option String := none
deriving DecidableEq, Repr

/-- The `raw_data` payload retained on a `UnifiedProduct`. -/
inductive RawRecord where
  | cj (r : CjRecord)
  | pj (r : PjRecord)
deriving DecidableEq, Repr

/-! ## UnifiedProduct (src/Core/data_models.py) -/

/-- The canonical product model of `data_models.UnifiedProduct`.  `sku = ""`
encodes Python `sku=None` before `__post_init__` runs; prices are `ℚ`. -/
structure UnifiedProduct where
  source_api : String
  source_product_id : String
  brand_name : String
  source_advertiser_id : String
  title : String
  description : String
  price : ℚ
  currency : String
  product_url : String
  image_url : String
  sku : String := ""
  availability : Bool := true
  sale_price : Option ℚ := none
  categories : List String := []
  keywords_matched : List String := []
  raw_data : Option RawRecord := none
deriving DecidableEq, Repr

/-- The `brand_slug` of `__post_init__` / `_generate_sku`: `brand_name`
upper-cased, with spaces replaced by underscores and dots removed. -/
def brandSlug (b : String) : String :=
  removeChar (replaceChar (pyUpper b) ' ' '_') '.'

/-- The SKU `__post_init__` derives when none was supplied:
`f"{brand_slug}-{api_slug}-{source_product_id}"`. -/
def unifiedSku (brand sourceApi sourceProductId : String) : String :=
  brandSlug brand ++ "-" ++ pyUpper sourceApi ++ "-" ++ sourceProductId

/-- Embeds `SyncOrchestrator._generate_sku`: same slugs, but additionally replaces
spaces in the source product id with hyphens. -/
def generateSkuOrch (brand sourceApi sourceProductId : String) : String :=
  brandSlug brand ++ "-" ++ pyUpper sourceApi ++ "-" ++ replaceChar sourceProductId ' ' '-'

/-- Embeds `UnifiedProduct.__post_init__`: generate the SKU when the supplied one is
falsy.  (The price-string coercion branch of `__post_init__` never fires in
this embedding because prices are already numeric.) -/
def postInit (u : UnifiedProduct) : UnifiedProduct :=
  if u.sku.isEmpty then
    { u with sku := unifiedSku u.brand_name u.source_api u.source_product_id }
  else u

example : brandSlug "GeorgiaBoot.com" = "GEORGIABOOTCOM" := by decide
example : unifiedSku "Trina Turk" "cj" "12345" = "TRINA_TURK-CJ-12345" := by decide

/-! ## CJ source adapter (`ProductRetriever._cj_product_to_unified`)

The adapter can raise (`float(price_info["amount"])` is unguarded):
`.error` marks a raised exception, `.ok none` a skipped record,
`.ok (some u)` a converted record.  `skipImg` is the `skip_image_validation` flag of the retriever flag and `imgOk` the network image-liveness oracle
(`_is_valid_image_url`). -/
def cjProductToUnified (skipImg : Bool) (imgOk : String → Bool)
    (rec : CjRecord) (brandName sourceApiName : String) :
    Except String (Option UnifiedProduct) :=
  -- required-field presence: link, imageLink, title
  if !strTruthy rec.link then .ok none
  else if !strTruthy rec.imageLink then .ok none
  else if !strTruthy rec.title then .ok none
  else
    -- price "0.00" rejection (string comparison on the raw amount)
    let priceInfo := rec.price.getD {}
    if priceInfo.amount == some "0.00" then .ok none
    -- duplicated imageLink presence check from the source (kept for fidelity)
    else if !strTruthy rec.imageLink then .ok none
    -- image URL validity (skipped when skip_image_validation is set)
    else if !skipImg && !imgOk (rec.imageLink.getD "") then .ok none
    -- identity fields needed for the SKU
    else if !strTruthy rec.advertiserId then .ok none
    else if !strTruthy rec.id then .ok none
    else
      let categories :=
        (match rec.productType with
         | some l => if !l.isEmpty then l else []
         | none => []) ++
        (if strTruthy rec.googleProductCategoryName then [rec.googleProductCategoryName.getD ""] else [])
      -- float(price_info["amount"]): KeyError when absent, ValueError when unparsable
      match priceInfo.amount with
      | none => .error "KeyError: amount"
      | some a =>
        match pyFloat? a with
        | none => .error "ValueError: could not convert string to float"
        | some q =>
          .ok (some (postInit
            { source_api := sourceApiName
              source_product_id := rec.id.getD ""
              brand_name := rec.advertiserName.getD brandName
              source_advertiser_id := rec.advertiserId.getD ""
              title := rec.title.getD "N/A"
              description := rec.description.getD ""
              price := q
              currency := priceInfo.currency.getD "USD"
              product_url := rec.link.getD ""
              image_url := rec.imageLink.getD ""
              availability := pyLower (rec.availability.getD "in stock") == "in stock"
              sale_price := none
              categories := categories
              raw_data := some (.cj rec) }))

/-! ## Pepperjam source adapter (`ProductRetriever._pepperjam_product_to_unified`)

The whole body is wrapped in `try/except: return None`, and every failure
path inside already returns `None`, so the embedding is `Option`-valued. -/
def pjProductToUnified (skipImg : Bool) (imgOk : String → Bool)
    (rec : PjRecord) (brandName programId : String) : Option UnifiedProduct :=
  -- price: absent/empty rejected; unparsable rejected
  if !strTruthy rec.price then none
  else
    match pyFloat? (rec.price.getD "") with
    | none => none
    | some priceAmount =>
      -- sale price: parse failure only logs, the product is kept
      let salePrice : Option ℚ :=
        if strTruthy rec.priceSale then pyFloat? (rec.priceSale.getD "") else none
      if !strTruthy rec.buyUrl then none
      else if !strTruthy rec.imageUrl then none
      else if !skipImg && !imgOk (rec.imageUrl.getD "") then none
      else
        let availabilityStr := rec.stockAvailability.getD "in stock"
        let isAvailable :=
          if availabilityStr.isEmpty then true
          else pyIn "in stock" (pyLower availabilityStr) || pyIn "available" (pyLower availabilityStr)
        some (postInit
          { source_api := "pepperjam"
            source_product_id :=
              match rec.id with
              | some v => v
              | none => rec.name.getD "None"  -- str(None) = "None"
            brand_name := rec.programName.getD brandName
            source_advertiser_id := programId
            title := rec.name.getD "N/A"
            description := rec.descriptionLong.getD (rec.descriptionShort.getD "")
            price := priceAmount
            currency := rec.currencySymbol.getD "USD"
            product_url := rec.buyUrl.getD ""
            image_url := rec.imageUrl.getD ""
            availability := isAvailable
            sale_price := salePrice
            categories := rec.categories.filterMap fun c =>
              match c.name with
              | some n => if !n.isEmpty then some n else none
              | none => none
            raw_data := some (.pj rec) })

/-! ## CJ retriever (`ProductRetriever.fetch_cj_products`)

The upstream GraphQL call is external; the embedding takes the `resultList`
payload of a successful call.  A failed call yields the empty payload (the
source logs and returns `[]`). -/

/-- The constant `MAX_RAW_PRODUCTS_TO_SCAN_FROM_FEED`. -/
def MaxRawProductsToScan : Nat := 1000

/-- One phrase of the inline OR filter of `fetch_cj_products`:
`phrase.lower() in title or phrase.lower() in description` on the lowered
raw fields (no emptiness guards). -/
def cjKeywordHit (phrase title descr : String) : Bool :=
  pyIn (pyLower phrase) (pyLower title) || pyIn (pyLower phrase) (pyLower descr)

/-- The phrases of the inline OR filter that hit a given CJ raw record
(the `matched_keywords` of the source for that record). -/
def cjMatched (keywords : List String) (r : CjRecord) : List String :=
  keywords.filter fun kw => cjKeywordHit kw (r.title.getD "") (r.description.getD "")

/-- Attach the matched keywords to a converted CJ product
(`unified_prod.keywords_matched = matched_keywords` when non-empty). -/
def cjTag (keywords : List String) (r : CjRecord) (p : UnifiedProduct) : UnifiedProduct :=
  if keywords ≠ [] ∧ cjMatched keywords r ≠ [] then
    { p with keywords_matched := cjMatched keywords r }
  else p

/-- The record loop of `fetch_cj_products`.  `attempted` and `count` are the
`attempted_cj_products_count` and `count` of the source; `acc` accumulates the
converted products in reverse.  An adapter exception is caught by the `try`
wrapping the whole loop, so the loop aborts and the products gathered so far
are returned. -/
def fetchCjGo (skipImg : Bool) (imgOk : String → Bool) (brandName : String)
    (keywords : List String) (limit : Nat) :
    List CjRecord → Nat → Nat → List UnifiedProduct → List UnifiedProduct
  | [], _, _, acc => acc.reverse
  | r :: rs, attempted, count, acc =>
    if attempted + 1 > MaxRawProductsToScan ∧ count < limit then acc.reverse
    else if keywords ≠ [] ∧ cjMatched keywords r = [] then
      fetchCjGo skipImg imgOk brandName keywords limit rs (attempted + 1) count acc
    else
      match cjProductToUnified skipImg imgOk r brandName "cj" with
      | .error _ => acc.reverse
      | .ok none => fetchCjGo skipImg imgOk brandName keywords limit rs (attempted + 1) count acc
      | .ok (some p) =>
        if count + 1 ≥ limit then (cjTag keywords r p :: acc).reverse
        else fetchCjGo skipImg imgOk brandName keywords limit rs (attempted + 1) (count + 1)
          (cjTag keywords r p :: acc)

/-- Embeds `fetch_cj_products` on the result list of one upstream call.
`keywords = []` models `keywords_list` being `None` or empty (both falsy). -/
def fetchCjProducts (skipImg : Bool) (imgOk : String → Bool)
    (productsList : List CjRecord) (brandName : String)
    (keywords : List String) (limit : Nat) : List UnifiedProduct :=
  fetchCjGo skipImg imgOk brandName keywords limit productsList 0 0 []

/-! ## Pepperjam retriever (`ProductRetriever.fetch_pepperjam_products`)

The retriever issues one upstream call per keyword phrase (one single call
with no keyword when the list is empty); `callResults` carries, in call
order, the keyword term of each successful call together with the `data`
payload it returned.  Failed calls contribute nothing (the source logs and
continues). -/

/-- Embeds `pj_prod_data.get("id") or pj_prod_data.get("name")`: the dedup
identifier, `none` when both are falsy (such records are skipped). -/
def pjIdentifier (r : PjRecord) : Option String :=
  if strTruthy r.id then r.id
  else if strTruthy r.name then r.name
  else none

/-- Models `pj_prod_data["_fetched_by_keyword"] = api_keywords_term_for_call`, applied only when the keyword is truthy:
tag the raw record with the keyword that fetched it (only when truthy). -/
def tagKeyword (kw : Option String) (r : PjRecord) : PjRecord :=
  match kw with
  | some k => if !k.isEmpty then { r with fetchedByKeyword := some k } else r
  | none => r

/-- The dedup loop over all call results, with `seen` being
`seen_product_identifiers_for_dedup` of the source; first occurrence wins. -/
def pjMergeGo : List (Option String × PjRecord) → List String → List PjRecord
  | [], _ => []
  | (kw, r) :: rest, seen =>
    match pjIdentifier r with
    | some i =>
      if i ∈ seen then pjMergeGo rest seen
      else tagKeyword kw r :: pjMergeGo rest (i :: seen)
    | none => pjMergeGo rest seen

/-- The list `all_raw_products_data_from_multiple_calls` after all calls: the nested
per-call/per-record loops flattened into one pass with a shared `seen` set. -/
def mergedPjRaw (callResults : List (Option String × List PjRecord)) : List PjRecord :=
  pjMergeGo ((callResults.map fun c => c.2.map fun r => (c.1, r)).flatten) []

/-- Attach the fetching keyword to a converted Pepperjam product
(`unified_prod.keywords_matched = [fetched_by_keyword]` when truthy). -/
def pjTag (r : PjRecord) (p : UnifiedProduct) : UnifiedProduct :=
  if strTruthy r.fetchedByKeyword then
    { p with keywords_matched := [r.fetchedByKeyword.getD ""] }
  else p

/-- The conversion loop of `fetch_pepperjam_products` over the merged raw
records; `processed` is `processed_raw_products_count` and `acc.length` being
the `count` of the source.  The two break conditions only apply when `process_all`
is false. -/
def pjConvertGo (skipImg : Bool) (imgOk : String → Bool)
    (brandName programId : String) (processAll : Bool) (limit : Nat) :
    List PjRecord → Nat → List UnifiedProduct → List UnifiedProduct
  | [], _, acc => acc.reverse
  | r :: rs, processed, acc =>
    if ¬processAll ∧ processed + 1 > MaxRawProductsToScan ∧ acc.length < limit then acc.reverse
    else if ¬processAll ∧ acc.length ≥ limit then acc.reverse
    else
      match pjProductToUnified skipImg imgOk r brandName programId with
      | some p =>
        pjConvertGo skipImg imgOk brandName programId processAll limit rs (processed + 1)
          (pjTag r p :: acc)
      | none => pjConvertGo skipImg imgOk brandName programId processAll limit rs (processed + 1) acc

/-- Embeds `fetch_pepperjam_products`: merge-and-dedup all call payloads, convert,
and return at most `limit` products (`return unified_products[:limit]`). -/
def fetchPepperjamProducts (skipImg : Bool) (imgOk : String → Bool)
    (callResults : List (Option String × List PjRecord))
    (brandName programId : String) (limit : Nat) (processAll : Bool) : List UnifiedProduct :=
  (pjConvertGo skipImg imgOk brandName programId processAll limit
    (mergedPjRaw callResults) 0 []).take limit

/-! ## Orchestrator (src/Core/sync_orchestrator.py) -/

/-- One phrase of `_filter_products_by_keywords`:
`(product.title and phrase_lower in product.title.lower()) or
 (product.description and phrase_lower in product.description.lower())`.
Each field is consulted only when truthy (non-empty). -/
def keywordMatchesGuarded (kw title descr : String) : Bool :=
  (!title.isEmpty && pyIn (pyLower kw) (pyLower title)) ||
  (!descr.isEmpty && pyIn (pyLower kw) (pyLower descr))

/-- The phrases of `user_keywords` that match one product under the guarded
test (what the loop leaves in `product.keywords_matched` after the append phase). -/
def orchMatched (userKeywords : List String) (p : UnifiedProduct) : List String :=
  userKeywords.filter fun kw => keywordMatchesGuarded kw p.title p.description

/-- One iteration of the `_filter_products_by_keywords` loop: keep the
product, with `keywords_matched` replaced by the matching phrases, iff some
phrase matched. -/
def keepProduct (userKeywords : List String) (p : UnifiedProduct) : Option UnifiedProduct :=
  if (orchMatched userKeywords p).isEmpty then none
  else some { p with keywords_matched := orchMatched userKeywords p }

/-- Embeds `_filter_products_by_keywords` (OR semantics).  The loop clears
`keywords_matched`, records every matching phrase, and keeps the product iff
some phrase matched; the "already matched by API search" branch at line 96
is dead code because line 93 just cleared the list, so it is omitted. -/
def filterProductsByKeywords (products : List UnifiedProduct)
    (userKeywords : List String) : List UnifiedProduct :=
  if userKeywords.isEmpty then products
  else products.filterMap (keepProduct userKeywords)

/-- Steps 3–5 of `run_sync_for_brand` in normal (non-test) mode:
availability filter, keyword filter, truncation to the per-brand target. -/
def selectProducts (fetched : List UnifiedProduct) (userKeywords : List String)
    (targetLimit : Nat) : List UnifiedProduct :=
  (filterProductsByKeywords (fetched.filter (·.availability)) userKeywords).take targetLimit

/-- Outcome of `run_sync_for_brand` for one brand: the failure reason (if the
brand was added to `failed_brands_info`), whether the master-collection
get-or-create call was issued, and the per-product attempt/success tallies. -/
structure BrandRunResult where
  failure : Option String
  collectionEnsured : Bool
  upsertAttempts : Nat
  upsertSuccesses : Nat
deriving DecidableEq, Repr

/-- Embeds `run_sync_for_brand` in normal mode (no dry-run, no fetch-only, no
test-mode), after the upstream fetch.  `configured` is membership in
`BRAND_CONFIG`; `fetched` the output of the retriever; `collectionOk` the outcome
of `get_or_create_collection`; `attempt p` whether the whole upsert sequence
for `p` succeeds (no exception and a truthy connector result). -/
def runSyncForBrand (configured : Bool) (fetched : List UnifiedProduct)
    (userKeywords : List String) (targetLimit : Nat) (collectionOk : Bool)
    (attempt : UnifiedProduct → Bool) : BrandRunResult :=
  if ¬configured then
    { failure := some "brand not in BRAND_CONFIG", collectionEnsured := false
      upsertAttempts := 0, upsertSuccesses := 0 }
  else if fetched = [] then
    { failure := some "API fetch returned no products", collectionEnsured := false
      upsertAttempts := 0, upsertSuccesses := 0 }
  else
    let finalProducts := selectProducts fetched userKeywords targetLimit
    if ¬collectionOk then
      { failure := some "Shopify master collection handling failed", collectionEnsured := true
        upsertAttempts := 0, upsertSuccesses := 0 }
    else
      let successes := finalProducts.countP attempt
      if finalProducts ≠ [] ∧ successes = 0 then
        { failure := some "all selected products failed to sync", collectionEnsured := true
          upsertAttempts := finalProducts.length, upsertSuccesses := 0 }
      else
        { failure := none, collectionEnsured := true
          upsertAttempts := finalProducts.length, upsertSuccesses := successes }

/-- Per-brand inputs of one `run_full_sync` iteration. -/
structure BrandInput where
  name : String
  configured : Bool
  fetched : List UnifiedProduct
  userKeywords : List String
  targetLimit : Nat
  collectionOk : Bool
deriving Repr

/-- Embeds `run_full_sync`: run each brand, counting a brand successful exactly when
`run_sync_for_brand` recorded no failure for it, and accumulating the
failure map.  (The source keys the map by brand name; brand names are
assumed distinct, as in `BRAND_CONFIG`.) -/
def runFullSync (inputs : List BrandInput) (attempt : UnifiedProduct → Bool) :
    Nat × List (String × String) :=
  inputs.foldl
    (fun acc bi =>
      let r := runSyncForBrand bi.configured bi.fetched bi.userKeywords bi.targetLimit
        bi.collectionOk attempt
      match r.failure with
      | none => (acc.1 + 1, acc.2)
      | some reason => (acc.1, acc.2 ++ [(bi.name, reason)]))
    (0, [])

/-! ## Shopify connector (src/Shopify/shopify_connector.py)

Only the catalog state the claims mention is modelled: the product-level
fields `create_product`/`update_product` write, with the remote save assumed
to succeed (a failed save raises and is handled by the per-product
`except` of the orchestrator). -/

/-- The remote product entry as far as the connector reads/writes it. -/
structure ShopifyProduct where
  title : String
  bodyHtml : String
  vendor : String
  productType : String
  publishedAt : Option String
  publishedScope : String
  imageSrc : Option String
  variantPrice : ℚ
  variantCompareAtPrice : Option ℚ
  variantSku : String
deriving DecidableEq, Repr

/-- The discount guard used by both `create_product` and `update_product`:
`unified_product.sale_price and unified_product.sale_price < unified_product.price`
(Python float truthiness makes a zero sale price falsy). -/
def discountActive (salePrice : Option ℚ) (price : ℚ) : Bool :=
  match salePrice with
  | none => false
  | some s => decide (s ≠ 0 ∧ s < price)

/-- Embeds `create_product` (non-dry-run): the product entry created by a
successful save.  `statusDraft` is `status == "draft"` (the orchestrator
always passes draft); `now` stands for `datetime.utcnow().isoformat()`. -/
def createProduct (up : UnifiedProduct) (statusDraft : Bool) (now : String) : ShopifyProduct :=
  let active := discountActive up.sale_price up.price
  { title := up.title
    bodyHtml := up.description
    vendor := up.brand_name
    productType := up.categories.headD ""
    publishedAt := if statusDraft then none else some now
    publishedScope := "web"
    imageSrc := if !up.image_url.isEmpty then some up.image_url else none
    variantPrice := if active then up.sale_price.getD 0 else up.price
    variantCompareAtPrice := if active then some up.price else none
    variantSku := up.sku }

/-- Embeds `update_product` (non-dry-run): the product entry after a successful
save.  Title, description, vendor and image are overwritten with the
values of the unified product; the variant price and compare-at price follow the
discount rule (a compare-at of exactly 0 is deliberately left in place when
clearing); `published_at`, `published_scope`, `product_type` and the variant
SKU are never written. -/
def updateProduct (existing : ShopifyProduct) (up : UnifiedProduct) : ShopifyProduct :=
  let active := discountActive up.sale_price up.price
  let targetPrice := if active then up.sale_price.getD 0 else up.price
  let targetCompareAt : Option ℚ := if active then some up.price else none
  let newCompareAt : Option ℚ :=
    match targetCompareAt with
    | some t => some t
    | none =>
      match existing.variantCompareAtPrice with
      | some c => if c ≠ 0 then none else some c
      | none => none
  { existing with
    title := up.title
    bodyHtml := up.description
    vendor := up.brand_name
    imageSrc := if !up.image_url.isEmpty then some up.image_url else existing.imageSrc
    variantPrice := targetPrice
    variantCompareAtPrice := newCompareAt }

/-! ## Spec-side predicates

These follow the words of the specification, to be compared with the embedded
code; the substring relation is genuine list infixhood. -/

/-- The phrase test of the spec: the phrase, compared case-insensitively, occurs
as a contiguous substring of the title or of the description. -/
def SpecPhraseMatch (kw title descr : String) : Prop :=
  (pyLower kw).toList <:+: (pyLower title).toList ∨
  (pyLower kw).toList <:+: (pyLower descr).toList

/-- The actual phrase test of the orchestrator filter, spec-level: as
`SpecPhraseMatch`, but a field is consulted only when non-empty. -/
def GuardedPhraseMatch (kw title descr : String) : Prop :=
  (title ≠ "" ∧ (pyLower kw).toList <:+: (pyLower title).toList) ∨
  (descr ≠ "" ∧ (pyLower kw).toList <:+: (pyLower descr).toList)

instance (kw title descr : String) : Decidable (SpecPhraseMatch kw title descr) := by
  unfold SpecPhraseMatch; infer_instance

instance (kw title descr : String) : Decidable (GuardedPhraseMatch kw title descr) := by
  unfold GuardedPhraseMatch; infer_instance

/-- The Pepperjam-side identity an output product carries in `raw_data`. -/
def prodPjIdent (u : UnifiedProduct) : Option String :=
  match u.raw_data with
  | some (.pj r) => pjIdentifier r
  | _ => none

/-! ## Helper lemmas -/

theorem pyIn_eq_true_iff (needle hay : String) :
    pyIn needle hay = true ↔ needle.toList <:+: hay.toList := by
  simp [pyIn]

theorem cjKeywordHit_iff (kw title descr : String) :
    cjKeywordHit kw title descr = true ↔ SpecPhraseMatch kw title descr := by
  simp [cjKeywordHit, pyIn, SpecPhraseMatch]

theorem str_isEmpty_false_iff (s : String) : s.isEmpty = false ↔ s ≠ "" := by
  rw [← Bool.not_eq_true, not_iff_not, String.isEmpty_iff]

theorem keywordMatchesGuarded_iff (kw title descr : String) :
    keywordMatchesGuarded kw title descr = true ↔ GuardedPhraseMatch kw title descr := by
  simp [keywordMatchesGuarded, pyIn, GuardedPhraseMatch, str_isEmpty_false_iff]

theorem replaceChar_eq_self (s : String) (a b : Char) (h : a ∉ s.toList) :
    replaceChar s a b = s := by
  cases s with
  | mk l =>
    show String.mk _ = String.mk l
    congr 1
    simp only [String.toList] at h ⊢
    induction l with
    | nil => rfl
    | cons c t ih =>
      simp only [List.mem_cons, not_or] at h
      have hca : ¬ c = a := fun hca => h.1 hca.symm
      simp [List.map_cons, ih h.2, hca]

theorem postInit_price (u : UnifiedProduct) : (postInit u).price = u.price := by
  unfold postInit; split <;> rfl

theorem postInit_raw_data (u : UnifiedProduct) : (postInit u).raw_data = u.raw_data := by
  unfold postInit; split <;> rfl

/-! ## Claim C5 -/

/-- C5: SKU generation is a pure, deterministic function of the triple
(brand_name, source_api, source_product_id); any two invocations with
identical inputs yield the identical SKU string, of the form
`{brand_slug}-{source_api_slug}-{source_product_id}`, so the derived SKU is
stable across repeated runs.  (The generator that actually runs is
`UnifiedProduct.__post_init__`; the orchestrator function `_generate_sku` is
unreachable because `__post_init__` always sets a non-empty SKU, and it
agrees with the `__post_init__` formula on ids without spaces.) -/
theorem claim_C5 (b1 s1 i1 b2 s2 i2 : String)
    (hb : b1 = b2) (hs : s1 = s2) (hi : i1 = i2)
    (u : UnifiedProduct) (hsku : u.sku = "")
    (hub : u.brand_name = b1) (hus : u.source_api = s1) (hui : u.source_product_id = i1)
    (j : String) (hj : ' ' ∉ j.toList) :
    unifiedSku b1 s1 i1 = unifiedSku b2 s2 i2 ∧
    (postInit u).sku = brandSlug b1 ++ "-" ++ pyUpper s1 ++ "-" ++ i1 ∧
    generateSkuOrch b1 s1 j = unifiedSku b1 s1 j := by
  subst hb hs hi hub hus hui
  refine ⟨rfl, ?_, ?_⟩
  · have : u.sku.isEmpty = true := by rw [hsku]; decide
    simp [postInit, this, unifiedSku]
  · simp [generateSkuOrch, unifiedSku, replaceChar_eq_self _ _ _ hj]

/-- Witness for C5 at the concrete triple ("Trina Turk", "cj", "12345"). -/
theorem claim_C5_witness :
    unifiedSku "Trina Turk" "cj" "12345" = unifiedSku "Trina Turk" "cj" "12345" ∧
    (postInit
      { source_api := "cj", source_product_id := "12345", brand_name := "Trina Turk"
        source_advertiser_id := "5923714", title := "T", description := ""
        price := 10, currency := "USD", product_url := "http://l", image_url := "http://i" }).sku
      = brandSlug "Trina Turk" ++ "-" ++ pyUpper "cj" ++ "-" ++ "12345" ∧
    generateSkuOrch "Trina Turk" "cj" "12345" = unifiedSku "Trina Turk" "cj" "12345" :=
  claim_C5 "Trina Turk" "cj" "12345" "Trina Turk" "cj" "12345" rfl rfl rfl
    { source_api := "cj", source_product_id := "12345", brand_name := "Trina Turk"
      source_advertiser_id := "5923714", title := "T", description := ""
      price := 10, currency := "USD", product_url := "http://l", image_url := "http://i" }
    rfl rfl rfl rfl "12345" (by decide)

/-! ## Claim C8 -/

/-- C8: when a product with the derived SKU already exists, `update_product`
writes only the mutable fields (title, description, vendor, image, variant
price and compare-at price) and never alters publish status: `published_at`
(and `published_scope`, `product_type`, the variant SKU) are left unchanged,
so an entry promoted to published by a human stays published after a sync. -/
theorem claim_C8 (existing : ShopifyProduct) (up : UnifiedProduct) :
    (updateProduct existing up).publishedAt = existing.publishedAt ∧
    (updateProduct existing up).publishedScope = existing.publishedScope ∧
    (updateProduct existing up).productType = existing.productType ∧
    (updateProduct existing up).variantSku = existing.variantSku ∧
    (updateProduct existing up).title = up.title ∧
    (updateProduct existing up).bodyHtml = up.description ∧
    (updateProduct existing up).vendor = up.brand_name := by
  simp [updateProduct]

/-! ## Claim C9 -/

/-- Counterexample to C9 as stated: for a product with `price = 10` and
`sale_price = 0` we have `sale_price ≤ price`, yet `create_product` applies
no discount (the variant sells at 10 with no compare-at price), because the
guard in the code is Python truthiness plus strict `<`, not `≤`. -/
theorem claim_C9_counterexample :
    (createProduct
      { source_api := "pepperjam", source_product_id := "p1", brand_name := "B"
        source_advertiser_id := "1", title := "T", description := ""
        price := 10, currency := "USD", product_url := "http://l", image_url := "http://i"
        sku := "S", sale_price := some 0 } true "t").variantPrice = 10 ∧
    (createProduct
      { source_api := "pepperjam", source_product_id := "p1", brand_name := "B"
        source_advertiser_id := "1", title := "T", description := ""
        price := 10, currency := "USD", product_url := "http://l", image_url := "http://i"
        sku := "S", sale_price := some 0 } true "t").variantCompareAtPrice = none ∧
    ((0 : ℚ) ≤ 10) := by
  refine ⟨?_, ?_, by norm_num⟩ <;> simp [createProduct, discountActive]

/-- C9 (amended): a discount is active exactly when `sale_price` is present,
non-zero and strictly less than `price`; then both `create_product` and
`update_product` set the selling price of the variant to `sale_price` and its
compare-at price to the original `price`.  When `sale_price ≥ price` (or is
zero) no discount is applied: the selling price is `price` and no compare-at
price is set from this product. -/
theorem claim_C9 (up : UnifiedProduct) (statusDraft : Bool) (now : String)
    (existing : ShopifyProduct) (s : ℚ) :
    (up.sale_price = some s → s ≠ 0 → s < up.price →
      (createProduct up statusDraft now).variantPrice = s ∧
      (createProduct up statusDraft now).variantCompareAtPrice = some up.price ∧
      (updateProduct existing up).variantPrice = s ∧
      (updateProduct existing up).variantCompareAtPrice = some up.price) ∧
    (up.sale_price = some s → up.price ≤ s →
      (createProduct up statusDraft now).variantPrice = up.price ∧
      (createProduct up statusDraft now).variantCompareAtPrice = none ∧
      (updateProduct existing up).variantPrice = up.price) ∧
    (up.sale_price = some 0 →
      (createProduct up statusDraft now).variantPrice = up.price) ∧
    (up.sale_price = none →
      (createProduct up statusDraft now).variantPrice = up.price ∧
      (createProduct up statusDraft now).variantCompareAtPrice = none) := by
  refine ⟨?_, ?_, ?_, ?_⟩
  · intro h h0 hlt
    have hact : discountActive (some s) up.price = true := by
      simp [discountActive, h0, hlt]
    refine ⟨?_, ?_, ?_, ?_⟩ <;> simp [createProduct, updateProduct, h, hact]
  · intro h hle
    have hact : discountActive up.sale_price up.price = false := by
      simp [discountActive, h]
      intro _
      exact hle
    refine ⟨?_, ?_, ?_⟩ <;> simp [createProduct, updateProduct, hact]
  · intro h
    have hact : discountActive up.sale_price up.price = false := by
      simp [discountActive, h]
    simp [createProduct, hact]
  · intro h
    have hact : discountActive up.sale_price up.price = false := by
      simp [discountActive, h]
    constructor <;> simp [createProduct, hact]

/-- Witness for C9 at concrete inputs: sale 5 < price 10 discounts both
writes; sale 12 > price 10 leaves the selling price at 10. -/
theorem claim_C9_witness :
    ((createProduct
      { source_api := "cj", source_product_id := "a", brand_name := "B"
        source_advertiser_id := "1", title := "T", description := ""
        price := 10, currency := "USD", product_url := "http://l", image_url := "http://i"
        sku := "S", sale_price := some 5 } true "t").variantPrice = 5 ∧
     (createProduct
      { source_api := "cj", source_product_id := "a", brand_name := "B"
        source_advertiser_id := "1", title := "T", description := ""
        price := 10, currency := "USD", product_url := "http://l", image_url := "http://i"
        sku := "S", sale_price := some 5 } true "t").variantCompareAtPrice = some 10 ∧
     (updateProduct
      { title := "old", bodyHtml := "", vendor := "V", productType := ""
        publishedAt := some "pub", publishedScope := "web", imageSrc := none
        variantPrice := 9, variantCompareAtPrice := none, variantSku := "S" }
      { source_api := "cj", source_product_id := "a", brand_name := "B"
        source_advertiser_id := "1", title := "T", description := ""
        price := 10, currency := "USD", product_url := "http://l", image_url := "http://i"
        sku := "S", sale_price := some 5 }).variantPrice = 5 ∧
     (updateProduct
      { title := "old", bodyHtml := "", vendor := "V", productType := ""
        publishedAt := some "pub", publishedScope := "web", imageSrc := none
        variantPrice := 9, variantCompareAtPrice := none, variantSku := "S" }
      { source_api := "cj", source_product_id := "a", brand_name := "B"
        source_advertiser_id := "1", title := "T", description := ""
        price := 10, currency := "USD", product_url := "http://l", image_url := "http://i"
        sku := "S", sale_price := some 5 }).variantCompareAtPrice = some 10) ∧
    ((createProduct
      { source_api := "cj", source_product_id := "a", brand_name := "B"
        source_advertiser_id := "1", title := "T", description := ""
        price := 10, currency := "USD", product_url := "http://l", image_url := "http://i"
        sku := "S", sale_price := some 12 } true "t").variantPrice = 10) :=
  ⟨(claim_C9
      { source_api := "cj", source_product_id := "a", brand_name := "B"
        source_advertiser_id := "1", title := "T", description := ""
        price := 10, currency := "USD", product_url := "http://l", image_url := "http://i"
        sku := "S", sale_price := some 5 } true "t"
      { title := "old", bodyHtml := "", vendor := "V", productType := ""
        publishedAt := some "pub", publishedScope := "web", imageSrc := none
        variantPrice := 9, variantCompareAtPrice := none, variantSku := "S" } 5).1
      rfl (by norm_num) (by norm_num),
   ((claim_C9
      { source_api := "cj", source_product_id := "a", brand_name := "B"
        source_advertiser_id := "1", title := "T", description := ""
        price := 10, currency := "USD", product_url := "http://l", image_url := "http://i"
        sku := "S", sale_price := some 12 } true "t"
      { title := "old", bodyHtml := "", vendor := "V", productType := ""
        publishedAt := some "pub", publishedScope := "web", imageSrc := none
        variantPrice := 9, variantCompareAtPrice := none, variantSku := "S" } 12).2.1
      rfl (by norm_num)).1⟩

/-! ## Claim C1 -/

/-- Counterexample to C1 as stated: a Pepperjam record whose price is the
string "0.00" is NOT rejected — `float("0.00")` succeeds and
`_pepperjam_product_to_unified` returns a `UnifiedProduct` with price 0
(there is no zero-price check in the Pepperjam adapter). -/
theorem claim_C1_counterexample :
    (pjProductToUnified true (fun _ => true)
      { id := some "p1", name := some "N", price := some "0.00"
        buyUrl := some "http://b", imageUrl := some "http://i" } "B" "42").map
      UnifiedProduct.price = some 0 := by
  decide

/-- C1 (amended): price validation is per-adapter.  For CJ records a price
amount equal to the string "0.00" yields absent; for Pepperjam records a
missing/empty or unparsable price string yields absent, but the string
"0.00" parses and (when the other validations pass) a product with price 0
IS produced; and for CJ records an unparsable price amount raises a
ValueError inside the adapter instead of returning absent. -/
theorem claim_C1 (skipImg : Bool) (imgOk : String → Bool)
    (recCj recCj2 : CjRecord) (brandName apiName : String)
    (recPj1 recPj2 recPj3 : PjRecord) (bn pid : String) (ps a : String) :
    ((recCj.price.getD {}).amount = some "0.00" →
      cjProductToUnified skipImg imgOk recCj brandName apiName = .ok none) ∧
    (strTruthy recPj1.price = false →
      pjProductToUnified skipImg imgOk recPj1 bn pid = none) ∧
    (recPj2.price = some ps → pyFloat? ps = none →
      pjProductToUnified skipImg imgOk recPj2 bn pid = none) ∧
    (recPj3.price = some "0.00" →
      pjProductToUnified skipImg imgOk recPj3 bn pid = none ∨
      (pjProductToUnified skipImg imgOk recPj3 bn pid).map UnifiedProduct.price = some 0) ∧
    (strTruthy recCj2.link = true → strTruthy recCj2.imageLink = true →
      strTruthy recCj2.title = true →
      (skipImg || imgOk (recCj2.imageLink.getD "")) = true →
      strTruthy recCj2.advertiserId = true → strTruthy recCj2.id = true →
      (recCj2.price.getD {}).amount = some a → pyFloat? a = none →
      cjProductToUnified skipImg imgOk recCj2 brandName apiName =
        .error "ValueError: could not convert string to float") := by
  refine ⟨?_, ?_, ?_, ?_, ?_⟩
  · intro h
    have hz : ((recCj.price.getD {}).amount == some "0.00") = true := by rw [h]; rfl
    simp only [cjProductToUnified]
    cases h1 : strTruthy recCj.link
    · simp [h1]
    · cases h2 : strTruthy recCj.imageLink
      · simp [h1, h2]
      · cases h3 : strTruthy recCj.title
        · simp [h1, h2, h3]
        · simp [h1, h2, h3, hz]
  · intro h
    simp [pjProductToUnified, h]
  · intro h hparse
    cases hps : strTruthy recPj2.price
    · simp [pjProductToUnified, hps]
    · simp [pjProductToUnified, hps, h, hparse]
  · intro h
    have hst : strTruthy (some "0.00") = true := by decide
    have hz : pyFloat? "0.00" = some 0 := by decide
    cases hbu : strTruthy recPj3.buyUrl
    · left; simp [pjProductToUnified, h, hst, hz, hbu]
    · cases him : strTruthy recPj3.imageUrl
      · left; simp [pjProductToUnified, h, hst, hz, hbu, him]
      · cases hv : (!skipImg && !imgOk (recPj3.imageUrl.getD ""))
        · right; simp [pjProductToUnified, h, hst, hz, hbu, him, hv, postInit_price]
        · left; simp [pjProductToUnified, h, hst, hz, hbu, him, hv]
  · intro h1 h2 h3 h4 h5 h6 hamt hparse
    have himg : (!skipImg && !imgOk (recCj2.imageLink.getD "")) = false := by
      rw [← Bool.not_or, h4]; rfl
    have hne : ¬ a = "0.00" := by
      intro he
      rw [he] at hparse
      exact absurd hparse (by decide)
    simp [cjProductToUnified, h1, h2, h3, himg, h5, h6, hne, hamt, hparse]

/-- Witness for C1 at concrete records: a CJ record priced "0.00" is
skipped; a Pepperjam record with no price, and one with price "xyz", are
skipped; a Pepperjam record priced "0.00" yields a product with price 0; a
CJ record priced "abc" raises. -/
theorem claim_C1_witness :
    cjProductToUnified true (fun _ => true)
      { id := some "c1", link := some "http://l", imageLink := some "http://i"
        title := some "T", price := some { amount := some "0.00" }
        advertiserId := some "42" } "B" "cj" = .ok none ∧
    pjProductToUnified true (fun _ => true) {} "B" "42" = none ∧
    pjProductToUnified true (fun _ => true) { price := some "xyz" } "B" "42" = none ∧
    (pjProductToUnified true (fun _ => true)
      { id := some "p1", price := some "0.00", buyUrl := some "http://b"
        imageUrl := some "http://i" } "B" "42" = none ∨
     (pjProductToUnified true (fun _ => true)
      { id := some "p1", price := some "0.00", buyUrl := some "http://b"
        imageUrl := some "http://i" } "B" "42").map UnifiedProduct.price = some 0) ∧
    cjProductToUnified true (fun _ => true)
      { id := some "c2", link := some "http://l", imageLink := some "http://i"
        title := some "T", price := some { amount := some "abc" }
        advertiserId := some "42" } "B" "cj" =
      .error "ValueError: could not convert string to float" := by
  refine ⟨?_, ?_, ?_, ?_, ?_⟩
  · exact (claim_C1 true (fun _ => true)
      { id := some "c1", link := some "http://l", imageLink := some "http://i"
        title := some "T", price := some { amount := some "0.00" }
        advertiserId := some "42" } {} "B" "cj" {} {} {} "B" "42" "" "").1 rfl
  · exact (claim_C1 true (fun _ => true) {} {} "B" "cj" {} {} {} "B" "42" "" "").2.1 rfl
  · exact (claim_C1 true (fun _ => true) {} {} "B" "cj" {} { price := some "xyz" } {}
      "B" "42" "xyz" "").2.2.1 rfl (by decide)
  · exact (claim_C1 true (fun _ => true) {} {} "B" "cj" {} {}
      { id := some "p1", price := some "0.00", buyUrl := some "http://b"
        imageUrl := some "http://i" } "B" "42" "" "").2.2.2.1 rfl
  · exact (claim_C1 true (fun _ => true) {}
      { id := some "c2", link := some "http://l", imageLink := some "http://i"
        title := some "T", price := some { amount := some "abc" }
        advertiserId := some "42" } "B" "cj" {} {} {} "B" "42" "" "abc").2.2.2.2
      rfl rfl rfl rfl rfl rfl rfl (by decide)

/-! ## Claim C2 -/

/-- C2 is refuted by the code (code bug): a CJ record whose price amount is
unparsable makes `_cj_product_to_unified` raise a ValueError
(`float(price_info["amount"])` is unguarded); the exception is caught only
by the `try` wrapping the whole conversion loop of `fetch_cj_products`, so
the remaining records of the same fetch are NOT converted.  Here a batch of
a bad-priced record followed by a perfectly valid record yields no products
at all, while the valid record alone converts. -/
theorem claim_C2 :
    fetchCjProducts true (fun _ => true)
      [ { id := some "c1", link := some "http://l1", imageLink := some "http://i1"
          title := some "T1", price := some { amount := some "abc" }
          advertiserId := some "42" },
        { id := some "c2", link := some "http://l2", imageLink := some "http://i2"
          title := some "T2", price := some { amount := some "10.00" }
          advertiserId := some "42" } ] "B" [] 10 = [] ∧
    (fetchCjProducts true (fun _ => true)
      [ { id := some "c2", link := some "http://l2", imageLink := some "http://i2"
          title := some "T2", price := some { amount := some "10.00" }
          advertiserId := some "42" } ] "B" [] 10).length = 1 ∧
    cjProductToUnified true (fun _ => true)
      { id := some "c1", link := some "http://l1", imageLink := some "http://i1"
        title := some "T1", price := some { amount := some "abc" }
        advertiserId := some "42" } "B" "cj" =
      .error "ValueError: could not convert string to float" := by
  refine ⟨?_, ?_, ?_⟩ <;> rfl

/-! ## Claim C3 -/

/-- Counterexample to C3 as stated: with the keyword list `[""]` and a
product whose title and description are both empty, the empty phrase does
occur as a (trivial) substring of the title, yet the filter of the orchestrator
drops the product, because the code consults a field only when it is
non-empty (`product.title and phrase_lower in product.title.lower()`). -/
theorem claim_C3_counterexample :
    filterProductsByKeywords
      [ { source_api := "cj", source_product_id := "p", brand_name := "B"
          source_advertiser_id := "1", title := "", description := ""
          price := 1, currency := "USD", product_url := "http://l"
          image_url := "http://i", sku := "S" } ] [""] = [] ∧
    SpecPhraseMatch "" "" "" ∧
    ([""] : List String) ≠ [] := by
  refine ⟨by decide, ?_, by decide⟩
  left
  decide

/-- C3 (amended): the keyword filters use OR semantics over whole,
case-insensitively compared phrases.  The inline CJ retriever filter keeps
a record iff some phrase is a substring of its title or description
(`SpecPhraseMatch`, exactly the predicate of the spec).  The orchestrator filter
`_filter_products_by_keywords` keeps a product iff some phrase matches under
`GuardedPhraseMatch`, which differs from the predicate of the spec only in that a
field is consulted only when non-empty; the `keywords_matched` list of every kept product is the non-empty list of all phrases that matched. -/
theorem keepProduct_eq_some (kws : List String) (p : UnifiedProduct)
    (hc : ∃ k ∈ kws, GuardedPhraseMatch k p.title p.description) :
    keepProduct kws p = some { p with keywords_matched := orchMatched kws p } := by
  have hm : (orchMatched kws p).isEmpty = false := by
    rw [← Bool.not_eq_true, List.isEmpty_iff]
    obtain ⟨k, hk, hg⟩ := hc
    intro hnil
    exact (List.filter_eq_nil_iff.mp hnil k hk) ((keywordMatchesGuarded_iff k _ _).mpr hg)
  simp [keepProduct, hm]

theorem keepProduct_eq_none (kws : List String) (p : UnifiedProduct)
    (hc : ¬ ∃ k ∈ kws, GuardedPhraseMatch k p.title p.description) :
    keepProduct kws p = none := by
  have hm : (orchMatched kws p).isEmpty = true := by
    rw [List.isEmpty_iff]
    unfold orchMatched
    rw [List.filter_eq_nil_iff]
    intro k hk hgb
    exact hc ⟨k, hk, (keywordMatchesGuarded_iff k _ _).mp hgb⟩
  simp [keepProduct, hm]

theorem claim_C3 (products : List UnifiedProduct) (kws : List String)
    (hne : kws ≠ []) (kw title descr : String) :
    (filterProductsByKeywords products kws =
      (products.filter fun p =>
        decide (∃ k ∈ kws, GuardedPhraseMatch k p.title p.description)).map
        (fun p => { p with keywords_matched := orchMatched kws p })) ∧
    (∀ q ∈ filterProductsByKeywords products kws,
      q.keywords_matched ≠ [] ∧
      ∀ k ∈ q.keywords_matched, k ∈ kws ∧ GuardedPhraseMatch k q.title q.description) ∧
    (cjKeywordHit kw title descr = true ↔ SpecPhraseMatch kw title descr) := by
  have hkne : kws.isEmpty = false := by
    cases kws with
    | nil => exact absurd rfl hne
    | cons a l => rfl
  have hmain : filterProductsByKeywords products kws =
      (products.filter fun p =>
        decide (∃ k ∈ kws, GuardedPhraseMatch k p.title p.description)).map
        (fun p => { p with keywords_matched := orchMatched kws p }) := by
    unfold filterProductsByKeywords
    rw [if_neg (by simp [hkne])]
    induction products with
    | nil => rfl
    | cons p ps ih =>
      by_cases hc : ∃ k ∈ kws, GuardedPhraseMatch k p.title p.description
      · rw [List.filterMap_cons_some (keepProduct_eq_some kws p hc), List.filter_cons,
          if_pos (by simpa using hc), List.map_cons, ih]
      · rw [List.filterMap_cons_none (keepProduct_eq_none kws p hc), List.filter_cons,
          if_neg (by simpa using hc), ih]
  refine ⟨hmain, ?_, cjKeywordHit_iff kw title descr⟩
  intro q hq
  rw [hmain] at hq
  obtain ⟨p, hp, rfl⟩ := List.mem_map.mp hq
  obtain ⟨hpmem, hpdec⟩ := List.mem_filter.mp hp
  constructor
  · obtain ⟨k, hk, hg⟩ := of_decide_eq_true hpdec
    intro hnil
    exact (List.filter_eq_nil_iff.mp hnil k hk) ((keywordMatchesGuarded_iff k _ _).mpr hg)
  · intro k hkmem
    have hin := List.mem_filter.mp hkmem
    exact ⟨hin.1, (keywordMatchesGuarded_iff k _ _).mp hin.2⟩

/-- Witness for C3 on the example given by the spec: phrases
["Work Boot", "Waterproof"] over the title "Mens Waterproof Work Boot". -/
theorem claim_C3_witness :
    filterProductsByKeywords
      [ { source_api := "cj", source_product_id := "p", brand_name := "B"
          source_advertiser_id := "1", title := "Mens Waterproof Work Boot"
          description := "", price := 1, currency := "USD", product_url := "http://l"
          image_url := "http://i", sku := "S" } ] ["Work Boot", "Waterproof"] =
      [ { source_api := "cj", source_product_id := "p", brand_name := "B"
          source_advertiser_id := "1", title := "Mens Waterproof Work Boot"
          description := "", price := 1, currency := "USD", product_url := "http://l"
          image_url := "http://i", sku := "S"
          keywords_matched := ["Work Boot", "Waterproof"] } ] ∧
    (∀ q ∈ filterProductsByKeywords
      [ { source_api := "cj", source_product_id := "p", brand_name := "B"
          source_advertiser_id := "1", title := "Mens Waterproof Work Boot"
          description := "", price := 1, currency := "USD", product_url := "http://l"
          image_url := "http://i", sku := "S" } ] ["Work Boot", "Waterproof"],
      q.keywords_matched ≠ [] ∧
      ∀ k ∈ q.keywords_matched, k ∈ ["Work Boot", "Waterproof"] ∧
        GuardedPhraseMatch k q.title q.description) ∧
    (cjKeywordHit "Work Boot" "Mens Waterproof Work Boot" "" = true ↔
      SpecPhraseMatch "Work Boot" "Mens Waterproof Work Boot" "") := by
  have h := claim_C3
    [ { source_api := "cj", source_product_id := "p", brand_name := "B"
        source_advertiser_id := "1", title := "Mens Waterproof Work Boot"
        description := "", price := 1, currency := "USD", product_url := "http://l"
        image_url := "http://i", sku := "S" } ] ["Work Boot", "Waterproof"]
    (by decide) "Work Boot" "Mens Waterproof Work Boot" ""
  exact ⟨by decide, h.2.1, h.2.2⟩

/-! ## Claim C6 -/

/-- Counterexample to C6 as stated: with a requested target count of 0 and
one valid upstream record, `fetch_cj_products` returns one product — the
loop appends before checking `count >= limit`, so the bound fails at
`limit = 0`. -/
theorem claim_C6_counterexample :
    (fetchCjProducts true (fun _ => true)
      [ { id := some "c1", link := some "http://l", imageLink := some "http://i"
          title := some "T", price := some { amount := some "10.00" }
          advertiserId := some "42" } ] "B" [] 0).length = 1 ∧
    ¬ ((fetchCjProducts true (fun _ => true)
      [ { id := some "c1", link := some "http://l", imageLink := some "http://i"
          title := some "T", price := some { amount := some "10.00" }
          advertiserId := some "42" } ] "B" [] 0).length ≤ 0) := by
  refine ⟨rfl, by decide⟩

theorem fetchCjGo_length_le (skipImg : Bool) (imgOk : String → Bool)
    (brandName : String) (keywords : List String) (limit : Nat) (rs : List CjRecord) :
    ∀ (attempted count : Nat) (acc : List UnifiedProduct), count < limit →
      (fetchCjGo skipImg imgOk brandName keywords limit rs attempted count acc).length
        ≤ acc.length + (limit - count) := by
  induction rs with
  | nil =>
    intro att count acc h
    simp only [fetchCjGo, List.length_reverse]
    omega
  | cons r rs ih =>
    intro att count acc h
    rw [fetchCjGo]
    split
    · simp only [List.length_reverse]; omega
    · split
      · exact ih _ _ _ h
      · split
        · simp only [List.length_reverse]; omega
        · exact ih _ _ _ h
        · split
          · simp only [List.length_reverse, List.length_cons]; omega
          · rename_i hlt2
            have hcl : count + 1 < limit := by omega
            exact le_trans (ih _ _ _ hcl) (by simp only [List.length_cons]; omega)

/-- C6 (amended): for every requested target count `limit ≥ 1`,
`fetch_cj_products` returns at most `limit` products, and
`fetch_pepperjam_products` returns at most `limit` products for every
`limit` (it slices `[:limit]` at the end); the CJ bound fails only at
`limit = 0`. -/
theorem claim_C6 (skipImg : Bool) (imgOk : String → Bool)
    (productsList : List CjRecord) (brandName : String) (keywords : List String)
    (limit : Nat) (hlim : 1 ≤ limit)
    (callResults : List (Option String × List PjRecord)) (programId : String)
    (limit2 : Nat) (processAll : Bool) :
    (fetchCjProducts skipImg imgOk productsList brandName keywords limit).length ≤ limit ∧
    (fetchPepperjamProducts skipImg imgOk callResults brandName programId limit2 processAll).length
      ≤ limit2 := by
  constructor
  · have := fetchCjGo_length_le skipImg imgOk brandName keywords limit productsList 0 0 []
      (by omega)
    simpa [fetchCjProducts] using this
  · simp only [fetchPepperjamProducts]
    exact List.length_take_le _ _

/-- Witness for C6 at `limit = 1` over two valid CJ records and one
Pepperjam call payload. -/
theorem claim_C6_witness :
    (fetchCjProducts true (fun _ => true)
      [ { id := some "c1", link := some "http://l", imageLink := some "http://i"
          title := some "T", price := some { amount := some "10.00" }
          advertiserId := some "42" },
        { id := some "c2", link := some "http://l2", imageLink := some "http://i2"
          title := some "T2", price := some { amount := some "12.00" }
          advertiserId := some "42" } ] "B" [] 1).length ≤ 1 ∧
    (fetchPepperjamProducts true (fun _ => true)
      [(none, [ { id := some "p1", price := some "10.00", buyUrl := some "http://b"
                  imageUrl := some "http://i" },
                { id := some "p2", price := some "11.00", buyUrl := some "http://b2"
                  imageUrl := some "http://i2" } ])] "B" "42" 1 true).length ≤ 1 :=
  claim_C6 true (fun _ => true)
    [ { id := some "c1", link := some "http://l", imageLink := some "http://i"
        title := some "T", price := some { amount := some "10.00" }
        advertiserId := some "42" },
      { id := some "c2", link := some "http://l2", imageLink := some "http://i2"
        title := some "T2", price := some { amount := some "12.00" }
        advertiserId := some "42" } ] "B" [] 1 (by decide)
    [(none, [ { id := some "p1", price := some "10.00", buyUrl := some "http://b"
                imageUrl := some "http://i" },
              { id := some "p2", price := some "11.00", buyUrl := some "http://b2"
                imageUrl := some "http://i2" } ])] "42" 1 true

/-! ## Claims C7 and C10 -/

theorem selectProducts_nil (kws : List String) (n : Nat) : selectProducts [] kws n = [] := by
  simp [selectProducts, filterProductsByKeywords]

/-- C7: for a brand whose final selection is non-empty (with configuration
and collection handling succeeding, so that the per-product upsert phase is
reached), `run_sync_for_brand` records the brand as failed iff every
upsert of every selected product failed; if at least one succeeds the brand is
recorded as succeeded in the run summary, and individual failures are
skipped without failing the brand. -/
theorem claim_C7 (fetched : List UnifiedProduct) (kws : List String) (targetLimit : Nat)
    (attempt : UnifiedProduct → Bool) (name : String)
    (hfin : selectProducts fetched kws targetLimit ≠ []) :
    ((runSyncForBrand true fetched kws targetLimit true attempt).failure.isSome ↔
      ∀ p ∈ selectProducts fetched kws targetLimit, attempt p = false) ∧
    ((∃ p ∈ selectProducts fetched kws targetLimit, attempt p = true) →
      (runSyncForBrand true fetched kws targetLimit true attempt).failure = none ∧
      (runFullSync [⟨name, true, fetched, kws, targetLimit, true⟩] attempt).1 = 1) := by
  have hfetched : fetched ≠ [] := by
    intro hf
    rw [hf] at hfin
    exact hfin (selectProducts_nil kws targetLimit)
  have hrun : runSyncForBrand true fetched kws targetLimit true attempt =
      (if selectProducts fetched kws targetLimit ≠ [] ∧
          (selectProducts fetched kws targetLimit).countP attempt = 0 then
        { failure := some "all selected products failed to sync", collectionEnsured := true
          upsertAttempts := (selectProducts fetched kws targetLimit).length
          upsertSuccesses := 0 }
      else
        { failure := none, collectionEnsured := true
          upsertAttempts := (selectProducts fetched kws targetLimit).length
          upsertSuccesses := (selectProducts fetched kws targetLimit).countP attempt }) := by
    simp only [runSyncForBrand]
    rw [if_neg (by simp), if_neg hfetched, if_neg (by simp)]
  constructor
  · by_cases hz : (selectProducts fetched kws targetLimit).countP attempt = 0
    · rw [hrun, if_pos ⟨hfin, hz⟩]
      simp only [Option.isSome_some, true_iff]
      intro p hp
      have := List.countP_eq_zero.mp hz p hp
      simpa using this
    · rw [hrun, if_neg (by tauto)]
      simp only [Option.isSome_none, Bool.false_eq_true, false_iff]
      intro hall
      apply hz
      exact List.countP_eq_zero.mpr (fun p hp => by simp [hall p hp])
  · rintro ⟨p, hp, hap⟩
    have hz : (selectProducts fetched kws targetLimit).countP attempt ≠ 0 := by
      have hpos : 0 < (selectProducts fetched kws targetLimit).countP attempt :=
        List.countP_pos_iff.mpr ⟨p, hp, hap⟩
      omega
    have hfail : (runSyncForBrand true fetched kws targetLimit true attempt).failure = none := by
      rw [hrun, if_neg (by tauto)]
    exact ⟨hfail, by simp [runFullSync, hfail]⟩

/-- Witness for C7: two available products, an upsert oracle succeeding on
exactly one of them — the brand is not failed and counts as successful. -/
theorem claim_C7_witness :
    (runSyncForBrand true
      [ { source_api := "cj", source_product_id := "a", brand_name := "B"
          source_advertiser_id := "1", title := "TA", description := ""
          price := 1, currency := "USD", product_url := "http://la"
          image_url := "http://ia", sku := "SA" },
        { source_api := "cj", source_product_id := "b", brand_name := "B"
          source_advertiser_id := "1", title := "TB", description := ""
          price := 2, currency := "USD", product_url := "http://lb"
          image_url := "http://ib", sku := "SB" } ] [] 5 true
      (fun p => p.source_product_id == "a")).failure = none ∧
    (runFullSync
      [⟨"Dreo", true,
        [ { source_api := "cj", source_product_id := "a", brand_name := "B"
            source_advertiser_id := "1", title := "TA", description := ""
            price := 1, currency := "USD", product_url := "http://la"
            image_url := "http://ia", sku := "SA" },
          { source_api := "cj", source_product_id := "b", brand_name := "B"
            source_advertiser_id := "1", title := "TB", description := ""
            price := 2, currency := "USD", product_url := "http://lb"
            image_url := "http://ib", sku := "SB" } ], [], 5, true⟩]
      (fun p => p.source_product_id == "a")).1 = 1 :=
  (claim_C7
    [ { source_api := "cj", source_product_id := "a", brand_name := "B"
        source_advertiser_id := "1", title := "TA", description := ""
        price := 1, currency := "USD", product_url := "http://la"
        image_url := "http://ia", sku := "SA" },
      { source_api := "cj", source_product_id := "b", brand_name := "B"
        source_advertiser_id := "1", title := "TB", description := ""
        price := 2, currency := "USD", product_url := "http://lb"
        image_url := "http://ib", sku := "SB" } ] [] 5
    (fun p => p.source_product_id == "a") "Dreo" (by decide)).2 (by decide)

/-- Counterexample to C10 as stated: fetch non-empty, final selection empty
(the only product is unavailable) — yet the brand IS marked failed when the
master-collection get-or-create step fails, because `run_sync_for_brand`
manages the collection even when there is nothing to sync; so an empty
selection does not by itself guarantee the brand avoids the failure map. -/
theorem claim_C10_counterexample :
    (runSyncForBrand true
      [ { source_api := "cj", source_product_id := "p", brand_name := "B"
          source_advertiser_id := "1", title := "T", description := ""
          price := 1, currency := "USD", product_url := "http://l"
          image_url := "http://i", sku := "S", availability := false } ] [] 5 false
      (fun _ => true)).failure.isSome = true ∧
    selectProducts
      [ { source_api := "cj", source_product_id := "p", brand_name := "B"
          source_advertiser_id := "1", title := "T", description := ""
          price := 1, currency := "USD", product_url := "http://l"
          image_url := "http://i", sku := "S", availability := false } ] [] 5 = [] ∧
    [ ( { source_api := "cj", source_product_id := "p", brand_name := "B"
          source_advertiser_id := "1", title := "T", description := ""
          price := 1, currency := "USD", product_url := "http://l"
          image_url := "http://i", sku := "S", availability := false } : UnifiedProduct) ]
      ≠ ([] : List UnifiedProduct) := by
  refine ⟨rfl, rfl, by decide⟩

/-- C10 (amended): with a non-empty fetch and an empty final selection, and
the ensure-collection step succeeding, the brand is not marked failed, no
per-product upsert is attempted, and the brand counts as successfully
processed in the run summary — but the ensure-collection call itself is
still issued, and its failure (like a zero-product fetch) does mark the
brand failed. -/
theorem claim_C10 (fetched : List UnifiedProduct) (kws : List String) (targetLimit : Nat)
    (attempt : UnifiedProduct → Bool) (name : String)
    (hfetched : fetched ≠ []) (hsel : selectProducts fetched kws targetLimit = []) :
    (runSyncForBrand true fetched kws targetLimit true attempt).failure = none ∧
    (runSyncForBrand true fetched kws targetLimit true attempt).upsertAttempts = 0 ∧
    (runSyncForBrand true fetched kws targetLimit true attempt).collectionEnsured = true ∧
    (runFullSync [⟨name, true, fetched, kws, targetLimit, true⟩] attempt).1 = 1 ∧
    (runFullSync [⟨name, true, fetched, kws, targetLimit, true⟩] attempt).2 = [] := by
  have hrun : runSyncForBrand true fetched kws targetLimit true attempt =
      { failure := none, collectionEnsured := true, upsertAttempts := 0
        upsertSuccesses := 0 } := by
    simp only [runSyncForBrand]
    rw [if_neg (by simp), if_neg hfetched, if_neg (by simp), if_neg (by simp [hsel])]
    simp [hsel]
  refine ⟨by rw [hrun], by rw [hrun], by rw [hrun], ?_, ?_⟩ <;> simp [runFullSync, hrun]

/-- Witness for C10: one unavailable fetched product, empty selection,
collection ensured — brand succeeds with zero upsert attempts. -/
theorem claim_C10_witness :
    (runSyncForBrand true
      [ { source_api := "cj", source_product_id := "p", brand_name := "B"
          source_advertiser_id := "1", title := "T", description := ""
          price := 1, currency := "USD", product_url := "http://l"
          image_url := "http://i", sku := "S", availability := false } ] [] 5 true
      (fun _ => false)).failure = none ∧
    (runSyncForBrand true
      [ { source_api := "cj", source_product_id := "p", brand_name := "B"
          source_advertiser_id := "1", title := "T", description := ""
          price := 1, currency := "USD", product_url := "http://l"
          image_url := "http://i", sku := "S", availability := false } ] [] 5 true
      (fun _ => false)).upsertAttempts = 0 ∧
    (runSyncForBrand true
      [ { source_api := "cj", source_product_id := "p", brand_name := "B"
          source_advertiser_id := "1", title := "T", description := ""
          price := 1, currency := "USD", product_url := "http://l"
          image_url := "http://i", sku := "S", availability := false } ] [] 5 true
      (fun _ => false)).collectionEnsured = true ∧
    (runFullSync
      [⟨"BOMBAS", true,
        [ { source_api := "cj", source_product_id := "p", brand_name := "B"
            source_advertiser_id := "1", title := "T", description := ""
            price := 1, currency := "USD", product_url := "http://l"
            image_url := "http://i", sku := "S", availability := false } ], [], 5, true⟩]
      (fun _ => false)).1 = 1 ∧
    (runFullSync
      [⟨"BOMBAS", true,
        [ { source_api := "cj", source_product_id := "p", brand_name := "B"
            source_advertiser_id := "1", title := "T", description := ""
            price := 1, currency := "USD", product_url := "http://l"
            image_url := "http://i", sku := "S", availability := false } ], [], 5, true⟩]
      (fun _ => false)).2 = [] :=
  claim_C10
    [ { source_api := "cj", source_product_id := "p", brand_name := "B"
        source_advertiser_id := "1", title := "T", description := ""
        price := 1, currency := "USD", product_url := "http://l"
        image_url := "http://i", sku := "S", availability := false } ] [] 5
    (fun _ => false) "BOMBAS" (by decide) rfl

/-! ## Claim C4 -/

theorem pjIdentifier_tagKeyword (kw : Option String) (r : PjRecord) :
    pjIdentifier (tagKeyword kw r) = pjIdentifier r := by
  cases kw with
  | none => rfl
  | some k =>
    simp only [tagKeyword]
    split <;> rfl

theorem pjMergeGo_countP_of_mem (i : String) :
    ∀ (l : List (Option String × PjRecord)) (seen : List String), i ∈ seen →
      (pjMergeGo l seen).countP (fun r => pjIdentifier r == some i) = 0 := by
  intro l
  induction l with
  | nil => intro seen _; rfl
  | cons x rest ih =>
    obtain ⟨kw, r⟩ := x
    intro seen h
    rw [pjMergeGo]
    split
    · rename_i j heq
      split
      · exact ih seen h
      · rename_i hjs
        rw [List.countP_cons]
        have hji : (pjIdentifier (tagKeyword kw r) == some i) = false := by
          rw [pjIdentifier_tagKeyword, heq]
          simp only [beq_eq_false_iff_ne, ne_eq, Option.some.injEq]
          intro hji
          rw [hji] at hjs
          exact hjs h
        rw [hji, if_neg (by simp)]
        have : i ∈ j :: seen := List.mem_cons_of_mem j h
        simpa using ih (j :: seen) this
    · exact ih seen h

theorem pjMergeGo_countP_of_not_mem (i : String) :
    ∀ (l : List (Option String × PjRecord)) (seen : List String), i ∉ seen →
      (pjMergeGo l seen).countP (fun r => pjIdentifier r == some i) =
        (if l.any (fun x => pjIdentifier x.2 == some i) then 1 else 0) := by
  intro l
  induction l with
  | nil => intro seen _; rfl
  | cons x rest ih =>
    obtain ⟨kw, r⟩ := x
    intro seen h
    rw [pjMergeGo, List.any_cons]
    split
    · rename_i j heq
      by_cases hjs : j ∈ seen
      · rw [if_pos hjs]
        have hji : (pjIdentifier r == some i) = false := by
          rw [heq]
          simp only [beq_eq_false_iff_ne, ne_eq, Option.some.injEq]
          intro hji
          rw [hji] at hjs
          exact h hjs
        rw [hji, Bool.false_or]
        exact ih seen h
      · rw [if_neg hjs, List.countP_cons]
        by_cases hji : j = i
        · subst hji
          have hp : (pjIdentifier (tagKeyword kw r) == some j) = true := by
            rw [pjIdentifier_tagKeyword, heq]
            exact beq_self_eq_true _
          have hz : (pjMergeGo rest (j :: seen)).countP (fun r => pjIdentifier r == some j) = 0 :=
            pjMergeGo_countP_of_mem j rest (j :: seen) (List.mem_cons_self j seen)
          rw [hp, if_pos rfl, hz]
          have hri : (pjIdentifier r == some j) = true := by
            rw [heq]
            exact beq_self_eq_true _
          rw [hri, Bool.true_or, if_pos rfl]
        · have hp : (pjIdentifier (tagKeyword kw r) == some i) = false := by
            rw [pjIdentifier_tagKeyword, heq]
            simpa using hji
          have hri : (pjIdentifier r == some i) = false := by
            rw [heq]
            simpa using hji
          have hnotmem : i ∉ j :: seen := by
            intro hmem
            rcases List.mem_cons.mp hmem with hij | hs
            · exact hji hij.symm
            · exact h hs
          rw [hp, if_neg (by simp), hri, Bool.false_or]
          simpa using ih (j :: seen) hnotmem
    · rename_i heq
      have hri : (pjIdentifier r == some i) = false := by rw [heq]; rfl
      rw [hri, Bool.false_or]
      exact ih seen h

theorem pjTag_prodPjIdent (r : PjRecord) (p : UnifiedProduct) :
    prodPjIdent (pjTag r p) = prodPjIdent p := by
  unfold pjTag
  split <;> rfl

theorem pjProductToUnified_raw (skipImg : Bool) (imgOk : String → Bool)
    (r : PjRecord) (bn pid : String) (u : UnifiedProduct)
    (h : pjProductToUnified skipImg imgOk r bn pid = some u) :
    u.raw_data = some (.pj r) := by
  cases hps : strTruthy r.price
  · simp [pjProductToUnified, hps] at h
  · cases hpf : pyFloat? (r.price.getD "")
    · simp [pjProductToUnified, hps, hpf] at h
    · cases hbu : strTruthy r.buyUrl
      · simp [pjProductToUnified, hps, hpf, hbu] at h
      · cases him : strTruthy r.imageUrl
        · simp [pjProductToUnified, hps, hpf, hbu, him] at h
        · cases hv : (!skipImg && !imgOk (r.imageUrl.getD ""))
          · simp [pjProductToUnified, hps, hpf, hbu, him, hv] at h
            rw [← h, postInit_raw_data]
          · simp [pjProductToUnified, hps, hpf, hbu, him, hv] at h

theorem pjConvertGo_countP_le (skipImg : Bool) (imgOk : String → Bool)
    (bn pid : String) (processAll : Bool) (limit : Nat) (i : String) :
    ∀ (rs : List PjRecord) (processed : Nat) (acc : List UnifiedProduct),
      (pjConvertGo skipImg imgOk bn pid processAll limit rs processed acc).countP
          (fun u => prodPjIdent u == some i)
        ≤ acc.countP (fun u => prodPjIdent u == some i) +
          rs.countP (fun r => pjIdentifier r == some i) := by
  intro rs
  induction rs with
  | nil =>
    intro processed acc
    simp [pjConvertGo, List.countP_reverse]
  | cons r rs ih =>
    intro processed acc
    rw [pjConvertGo]
    split
    · rw [List.countP_reverse]
      exact Nat.le_add_right _ _
    · split
      · rw [List.countP_reverse]
        exact Nat.le_add_right _ _
      · rw [List.countP_cons]
        split
        · rename_i p heq
          have hraw := pjProductToUnified_raw skipImg imgOk r bn pid p heq
          have hpp : (prodPjIdent (pjTag r p) == some i) = (pjIdentifier r == some i) := by
            rw [pjTag_prodPjIdent]
            unfold prodPjIdent
            rw [hraw]
          have hstep := ih (processed + 1) (pjTag r p :: acc)
          rw [List.countP_cons, hpp] at hstep
          cases hb : (pjIdentifier r == some i)
          · rw [hb] at hstep
            simp only [Bool.false_eq_true, if_false] at hstep ⊢
            omega
          · rw [hb] at hstep
            simp only [if_pos rfl] at hstep ⊢
            omega
        · have hstep := ih (processed + 1) acc
          split <;> omega

/-- Counterexample to C4 as stated: the identifier "X" appears in the
payloads of two distinct keyword calls, but its record lacks `buy_url`, so
the merged retriever output contains ZERO products for it, not exactly
one — dedup guarantees at most one, not exactly one. -/
theorem claim_C4_counterexample :
    (fetchPepperjamProducts true (fun _ => true)
      [ (some "kw1", [ { id := some "X", name := some "N", price := some "10.00" } ]),
        (some "kw2", [ { id := some "X", name := some "N", price := some "10.00" } ]) ]
      "B" "42" 10 true).countP
      (fun u => prodPjIdent u == some "X") = 0 ∧
    pjIdentifier { id := some "X", name := some "N", price := some "10.00" } = some "X" := by
  exact ⟨rfl, rfl⟩

/-- C4 (amended): merged Pepperjam call results are deduplicated by the raw
identity field (`id`, falling back to `name`), first occurrence winning: any
identifier occurring in the call results appears on exactly one raw record
of the merged candidate list, and the retriever output therefore contains AT
MOST one `UnifiedProduct` carrying that identifier (not always exactly one:
the surviving record can still fail adapter validation, or be cut by the
limit). -/
theorem claim_C4 (skipImg : Bool) (imgOk : String → Bool)
    (callResults : List (Option String × List PjRecord))
    (brandName programId : String) (limit : Nat) (processAll : Bool) (i : String)
    (h : ∃ c ∈ callResults, ∃ r ∈ c.2, pjIdentifier r = some i) :
    (mergedPjRaw callResults).countP (fun r => pjIdentifier r == some i) = 1 ∧
    (fetchPepperjamProducts skipImg imgOk callResults brandName programId limit
      processAll).countP (fun u => prodPjIdent u == some i) ≤ 1 := by
  have hany : ((callResults.map fun c => c.2.map fun r => (c.1, r)).flatten).any
      (fun x => pjIdentifier x.2 == some i) = true := by
    rw [List.any_eq_true]
    obtain ⟨c, hc, r, hr, hid⟩ := h
    refine ⟨(c.1, r), ?_, by simp [hid]⟩
    rw [List.mem_flatten]
    exact ⟨c.2.map (fun r => (c.1, r)), List.mem_map.mpr ⟨c, hc, rfl⟩,
      List.mem_map.mpr ⟨r, hr, rfl⟩⟩
  have hmerged : (mergedPjRaw callResults).countP (fun r => pjIdentifier r == some i) = 1 := by
    unfold mergedPjRaw
    rw [pjMergeGo_countP_of_not_mem i _ [] (by simp), hany, if_pos rfl]
  refine ⟨hmerged, ?_⟩
  unfold fetchPepperjamProducts
  calc ((pjConvertGo skipImg imgOk brandName programId processAll limit
          (mergedPjRaw callResults) 0 []).take limit).countP (fun u => prodPjIdent u == some i)
      ≤ (pjConvertGo skipImg imgOk brandName programId processAll limit
          (mergedPjRaw callResults) 0 []).countP (fun u => prodPjIdent u == some i) :=
        (List.take_sublist _ _).countP_le _
    _ ≤ ([] : List UnifiedProduct).countP (fun u => prodPjIdent u == some i) +
          (mergedPjRaw callResults).countP (fun r => pjIdentifier r == some i) :=
        pjConvertGo_countP_le skipImg imgOk brandName programId processAll limit i
          (mergedPjRaw callResults) 0 []
    _ = 1 := by rw [hmerged]; rfl

/-- Witness for C4: the same valid record returned by two keyword calls —
exactly one merged raw candidate and at most one output product. -/
theorem claim_C4_witness :
    (mergedPjRaw
      [ (some "kw1", [ { id := some "X", price := some "10.00", buyUrl := some "http://b"
                         imageUrl := some "http://i" } ]),
        (some "kw2", [ { id := some "X", price := some "10.00", buyUrl := some "http://b"
                         imageUrl := some "http://i" } ]) ]).countP
      (fun r => pjIdentifier r == some "X") = 1 ∧
    (fetchPepperjamProducts true (fun _ => true)
      [ (some "kw1", [ { id := some "X", price := some "10.00", buyUrl := some "http://b"
                         imageUrl := some "http://i" } ]),
        (some "kw2", [ { id := some "X", price := some "10.00", buyUrl := some "http://b"
                         imageUrl := some "http://i" } ]) ]
      "B" "42" 10 true).countP (fun u => prodPjIdent u == some "X") ≤ 1 :=
  claim_C4 true (fun _ => true)
    [ (some "kw1", [ { id := some "X", price := some "10.00", buyUrl := some "http://b"
                       imageUrl := some "http://i" } ]),
      (some "kw2", [ { id := some "X", price := some "10.00", buyUrl := some "http://b"
                       imageUrl := some "http://i" } ]) ]
    "B" "42" 10 true "X" (by decide)

end ShopifySync
